import Mathlib

/-!
Verification of the newsletter data model and submission lifecycle of
newsletter/abstract_models.py.

Shallow embedding conventions:
* Time is a natural number; the Django now() call becomes an explicit
  parameter t.
* Django model instances become Lean structures holding the truthiness of
  each field the code inspects; user and email_field are modelled by their
  Python truthiness (a null or empty value is false).
* Persisted rows are passed explicitly (the old row for Subscription.save,
  the list of article sortorders for a Message, the queue of submissions).
* Fallible code (Python assert, escaping exceptions) is an Except value.
* The mail backend is modelled by two oracle flags per recipient:
  renderFails models an exception raised while rendering the message in
  send_message, which happens before the try block there and therefore
  escapes to the loop in submit; sendFails models message.send() raising,
  which is caught inside send_message and only logged.
-/

/-- A Subscription row: the fields read or written by
AbstractSubscription.save, _subscribe and _unsubscribe. -/
structure Subscription where
  user : Bool
  email_field : Bool
  subscribed : Bool
  unsubscribed : Bool
  subscribe_date : Option Nat
  unsubscribe_date : Option Nat
deriving DecidableEq

/-- AbstractSubscription._subscribe: stamp subscribe_date, set subscribed,
clear unsubscribed and unsubscribe_date. -/
def _subscribe (t : Nat) (s : Subscription) : Subscription :=
  { s with subscribe_date := some t, subscribed := true,
           unsubscribed := false, unsubscribe_date := none }

/-- AbstractSubscription._unsubscribe: clear subscribed, set unsubscribed and
stamp unsubscribe_date.  Note: the code does not touch subscribe_date here. -/
def _unsubscribe (t : Nat) (s : Subscription) : Subscription :=
  { s with subscribed := false, unsubscribed := true,
           unsubscribe_date := some t }

/-- AbstractSubscription.save.  old is the currently persisted row when the
instance has a pk, none for a fresh instance.  The two identity asserts come
first; then the transition logic decides between _subscribe, _unsubscribe and
no state change; the asserts following each transition in the code are kept as
explicit checks. -/
def Subscription.save (t : Nat) (old : Option Subscription) (s : Subscription) :
    Except String Subscription :=
  if !(s.user || s.email_field) then
    .error "Neither an email nor a username is set. This asks for inconsistency!"
  else if !((s.user && !s.email_field) || (s.email_field && !s.user)) then
    .error "If user is set, email must be null and vice versa."
  else
    match old with
    | some o =>
        if (s.subscribed && !o.subscribed) || (o.unsubscribed && !s.unsubscribed) then
          let s2 := _subscribe t s
          if s2.unsubscribed || !s2.subscribed then .error "assert after subscribe"
          else .ok s2
        else if (s.unsubscribed && !o.unsubscribed) || (o.subscribed && !s.subscribed) then
          let s2 := _unsubscribe t s
          if s2.subscribed || !s2.unsubscribed then .error "assert after unsubscribe"
          else .ok s2
        else .ok s
    | none =>
        if s.subscribed then .ok (_subscribe t s)
        else if s.unsubscribed then .ok (_unsubscribe t s)
        else .ok s

/-- The persisted row after a save attempt: an assertion failure leaves the
stored row unchanged, a successful save replaces it. -/
def saveToDb (t : Nat) (old : Option Subscription) (s : Subscription) :
    Option Subscription :=
  match Subscription.save t old s with
  | .ok s2 => some s2
  | .error _ => old

/-- Modelled from the spec: the tuple of confirmation actions defined in
newsletter/utils.py, which is not among the sources.  The spec names the
actions subscribe/unsubscribe/update confirmation. -/
def ACTIONS : List String := ["subscribe", "unsubscribe", "update"]

/-- The template search lists built by AbstractNewsletter.get_templates for a
slug and an action: newsletter-specific path first, then the global fallback. -/
def templateCandidates (slug action suffix : String) : List String :=
  ["newsletter/message/" ++ slug ++ "/" ++ action ++ suffix,
   "newsletter/message/" ++ action ++ suffix]

/-- AbstractNewsletter.get_templates: asserts the action is recognized, then
returns the subject, text and optional HTML template search lists. -/
def get_templates (slug : String) (send_html : Bool) (action : String) :
    Except String (List String × List String × Option (List String)) :=
  if (ACTIONS ++ ["message"]).contains action then
    .ok (templateCandidates slug action "_subject.txt",
         templateCandidates slug action ".txt",
         if send_html then some (templateCandidates slug action ".html") else none)
  else
    .error ("Unknown action: " ++ action)

/-- The aggregate Max over the sortorders of the articles of a message: none
when the message has no articles. -/
def aggregateMax : List Nat → Option Nat
  | [] => none
  | x :: xs => some (xs.foldl Nat.max x)

/-- AbstractMessage.get_next_article_sortorder: next_order + 10 when the
aggregate is truthy (a nonzero number), else 10.  The Python truthiness test
also sends a maximum of 0 to the else branch. -/
def get_next_article_sortorder (sortorders : List Nat) : Nat :=
  match aggregateMax sortorders with
  | some next_order => if next_order ≠ 0 then next_order + 10 else 10
  | none => 10

/-- AbstractArticle.save: when sortorder is unset, assign the next available
sortorder of the owning message; otherwise keep the given one. -/
def Article.save (messageSortorders : List Nat) (sortorder : Option Nat) : Nat :=
  match sortorder with
  | none => get_next_article_sortorder messageSortorders
  | some s => s

/-- One row of the subscriptions relation of a Submission, together with the
behaviour of the environment for this recipient: renderFails models an
exception while rendering in send_message (raised before the try block there,
so it escapes into the loop of submit), sendFails models message.send()
raising inside the try block (caught and logged in send_message). -/
structure Recipient where
  subscribed : Bool
  renderFails : Bool
  sendFails : Bool
deriving DecidableEq

/-- The status flags of a Submission row. -/
structure SubmissionState where
  prepared : Bool
  sent : Bool
  sending : Bool
  publish_date : Nat
deriving DecidableEq

/-- A Submission: its status flags, its explicitly attached subscriptions
(the many-to-many field), and the subscription rows of its newsletter (read
by AbstractNewsletter.get_subscriptions; submit itself never consults them). -/
structure Submission where
  state : SubmissionState
  attached : List Recipient
  newsletterSubs : List Recipient
deriving DecidableEq

/-- AbstractSubmission.send_message for one recipient: rendering happens
before the try block, so a rendering failure propagates; message.send() is
inside the try block, so its failure is logged and swallowed.  Returns
whether the send succeeded. -/
def send_message (r : Recipient) : Except String Bool :=
  if r.renderFails then .error "render failed"
  else if r.sendFails then .ok false
  else .ok true

/-- The loop body of submit over the resolved recipients.  Returns the number
of recipients for which send_message was invoked, the number of successful
message.send() calls, and whether the loop ran to completion without an
escaping exception. -/
def sendLoop : List Recipient → Nat × Nat × Bool
  | [] => (0, 0, true)
  | r :: rs =>
      match send_message r with
      | .error _ => (1, 0, false)
      | .ok ok =>
          let rest := sendLoop rs
          (rest.1 + 1, rest.2.1 + (if ok then 1 else 0), rest.2.2)

/-- The outcome of submit: the persisted status flags on exit, how many
recipients were attempted and how many sends succeeded. -/
structure SubmitResult where
  state : SubmissionState
  attempted : Nat
  delivered : Nat
deriving DecidableEq

/-- AbstractSubmission.submit.  The recipient set is the attached
subscriptions filtered to subscribed=True.  The publish-date assert comes
before sending is set.  The try/except/finally is modelled by sendLoop: an
escaping exception is caught by the except clause, so sent stays false there;
the finally clause always clears sending and persists. -/
def Submission.submit (t : Nat) (sub : Submission) : Except String SubmitResult :=
  let subscriptions := sub.attached.filter (fun r => r.subscribed)
  if !(decide (sub.state.publish_date < t)) then
    .error "Something smells fishy; submission time in future."
  else
    let st1 := { sub.state with sending := true }
    let res := sendLoop subscriptions
    let st2 := if res.2.2 then { st1 with sent := true } else st1
    .ok { state := { st2 with sending := false },
          attempted := res.1, delivered := res.2.1 }

/-- The outcome of submit as an Option, for stating its observable effects. -/
def submitOutcome (t : Nat) (sub : Submission) : Option SubmitResult :=
  (Submission.submit t sub).toOption

/-- The filter of AbstractSubmission.submit_queue: prepared, unsent, not
sending, publish date in the past. -/
def pendingFilter (t : Nat) (sub : Submission) : Bool :=
  sub.state.prepared && !sub.state.sent && !sub.state.sending &&
    decide (sub.state.publish_date < t)

/-- The effect of calling submit on one submission of the queue: its status
flags are replaced by the flags submit persisted. -/
def applySubmit (t : Nat) (sub : Submission) : Submission :=
  match Submission.submit t sub with
  | .ok res => { sub with state := res.state }
  | .error _ => sub

/-- AbstractSubmission.submit_queue over the persisted submissions: submit is
invoked on exactly the rows matching the filter. -/
def submit_queue (t : Nat) (subs : List Submission) : List Submission :=
  subs.map (fun s => if pendingFilter t s then applySubmit t s else s)

/-- From the words of the spec, for comparison with the code: the recipient
set of a Submission is either its explicitly attached subscriptions or, if
none given, all currently-subscribed subscriptions of its newsletter. -/
def specRecipients (sub : Submission) : List Recipient :=
  if sub.attached = [] then sub.newsletterSubs.filter (fun r => r.subscribed)
  else sub.attached

/-- A successful save never changes the identity fields: the result is the
instance itself or the instance after one of the two transitions, neither of
which touches user or email_field. -/
lemma save_ok_identity (t : Nat) (old : Option Subscription) (s s2 : Subscription)
    (h : Subscription.save t old s = .ok s2) :
    s2.user = s.user ∧ s2.email_field = s.email_field := by
  obtain ⟨su, se, ss, sn, d1, d2⟩ := s
  obtain ⟨u2, e2, s2s, s2n, c1, c2⟩ := s2
  rcases old with _ | o
  · cases su <;> cases se <;> cases ss <;> cases sn <;>
      simp_all [Subscription.save, _subscribe, _unsubscribe]
  · cases su <;> cases se <;> cases ss <;> cases sn <;>
      cases ho : o.subscribed <;> cases hu : o.unsubscribed <;>
      simp_all [Subscription.save, _subscribe, _unsubscribe]

/-- Concrete rows for the C7 witness: a valid user-based subscription and an
invalid row with both identity fields set. -/
def w7new : Subscription := ⟨true, false, true, false, none, none⟩

def w7res : Subscription := ⟨true, false, true, false, some 3, none⟩

def w7bad : Subscription := ⟨true, true, false, false, none, none⟩

/-- C7: for every Subscription, after a successful save exactly one of
(user set, email_field set) holds; when both or neither are set, save raises
an assertion failure and the stored row is left unchanged. -/
theorem subscription_identity_after_save (t : Nat) (old : Option Subscription)
    (s s2 : Subscription) :
    (Subscription.save t old s = .ok s2 →
        (s2.user = true ∧ s2.email_field = false) ∨
        (s2.user = false ∧ s2.email_field = true)) ∧
    (s.user = s.email_field →
        (Subscription.save t old s).toOption = none ∧ saveToDb t old s = old) := by
  constructor
  · intro h
    obtain ⟨hu, he⟩ := save_ok_identity t old s s2 h
    cases hsu : s.user <;> cases hse : s.email_field
    · simp [Subscription.save, hsu, hse] at h
    · exact Or.inr ⟨hu.trans hsu, he.trans hse⟩
    · exact Or.inl ⟨hu.trans hsu, he.trans hse⟩
    · simp [Subscription.save, hsu, hse] at h
  · intro heq
    cases hsu : s.user <;> cases hse : s.email_field
    · simp [Subscription.save, saveToDb, hsu, hse, Except.toOption]
    · rw [hsu, hse] at heq; exact absurd heq (by decide)
    · rw [hsu, hse] at heq; exact absurd heq (by decide)
    · simp [Subscription.save, saveToDb, hsu, hse, Except.toOption]

/-- C7 witness: the invariant at a concrete valid save and a concrete
invalid save. -/
theorem subscription_identity_after_save_witness :
    (((w7res.user = true ∧ w7res.email_field = false) ∨
      (w7res.user = false ∧ w7res.email_field = true)) ∧
     ((Subscription.save 3 none w7bad).toOption = none ∧
      saveToDb 3 none w7bad = none)) :=
  ⟨(subscription_identity_after_save 3 none w7new w7res).1 rfl,
   (subscription_identity_after_save 3 none w7bad w7bad).2 rfl⟩

/-- Concrete rows for the C5 counterexample: a subscribed email subscription
with subscribe_date 5, then saved with unsubscribed set (the update action
for unsubscribe leaves subscribed untouched). -/
def c5old : Subscription := ⟨false, true, true, false, some 5, none⟩

def c5new : Subscription := ⟨false, true, true, true, some 5, none⟩

/-- C5 counterexample: saving with unsubscribed newly true does set
unsubscribe_date and clear subscribed, but subscribe_date stays some 5: the
code does not clear it, refuting the clause of the claim that subscribe_date
is cleared. -/
theorem c5_subscribe_date_not_cleared :
    (Subscription.save 10 (some c5old) c5new).toOption.map
      (fun s2 => (s2.subscribed, s2.unsubscribe_date, s2.subscribe_date)) =
      some (false, some 10, some 5) := rfl

/-- C5 amended: transitioning unsubscribed from false to true stamps
unsubscribe_date with the current time and clears subscribed, but leaves
subscribe_date unchanged.  Hypotheses: the row has a valid identity, and the
save does not simultaneously transition subscribed from false to true (in
which case the code takes the subscribe branch instead). -/
theorem unsubscribe_transition (t : Nat) (old s : Subscription)
    (hid : ((s.user && !s.email_field) || (s.email_field && !s.user)) = true)
    (hold : old.unsubscribed = false)
    (hnew : s.unsubscribed = true)
    (hns : s.subscribed = true → old.subscribed = true) :
    (Subscription.save t (some old) s).toOption.map
      (fun s2 => (s2.unsubscribe_date, s2.subscribed, s2.subscribe_date)) =
      some (some t, false, s.subscribe_date) := by
  have h1 : (s.subscribed && !old.subscribed) = false := by
    cases hss : s.subscribed
    · rfl
    · simp [hns hss]
  have h2 : (s.user || s.email_field) = true := by
    cases hsu : s.user <;> cases hse : s.email_field <;> simp_all
  simp [Subscription.save, _unsubscribe, h1, h2, hid, hold, hnew, Except.toOption]

/-- Concrete rows for the C5 witness. -/
def w5old : Subscription := ⟨false, true, true, false, some 5, none⟩

def w5new : Subscription := ⟨false, true, true, true, some 5, none⟩

/-- C5 witness: the amended transition at a concrete input. -/
theorem unsubscribe_transition_witness :
    (Subscription.save 10 (some w5old) w5new).toOption.map
      (fun s2 => (s2.unsubscribe_date, s2.subscribed, s2.subscribe_date)) =
      some (some 10, false, some 5) :=
  unsubscribe_transition 10 w5old w5new rfl rfl rfl (fun _ => rfl)

/-- C8: an Article saved with sortorder unset is auto-assigned one: the first
article of a message gets 10, and with existing articles of maximum sortorder
m the new article gets m + 10 (also when m = 0, where the truthiness branch
of the code returns the literal 10 = 0 + 10). -/
theorem article_sortorder_assignment (sortorders : List Nat) :
    Article.save [] none = 10 ∧
    (∀ m, aggregateMax sortorders = some m →
      Article.save sortorders none = m + 10) := by
  refine ⟨rfl, ?_⟩
  intro m hm
  show get_next_article_sortorder sortorders = m + 10
  unfold get_next_article_sortorder
  rw [hm]
  by_cases h : m = 0
  · subst h; simp
  · simp [h]

/-- C8 witness: auto-assignment for an empty message and for a message whose
articles have maximum sortorder 20. -/
theorem article_sortorder_assignment_witness :
    Article.save [] none = 10 ∧ Article.save [10, 20] none = 20 + 10 :=
  ⟨(article_sortorder_assignment []).1,
   (article_sortorder_assignment [10, 20]).2 20 rfl⟩

/-- C9 counterexample: for the action "message" the assertion passes and the
template triple is returned, refuting the clause of the claim that
get_templates raises/asserts for the action "message". -/
theorem get_templates_message_ok :
    (get_templates "weekly" true "message").toOption =
      some (templateCandidates "weekly" "message" "_subject.txt",
            templateCandidates "weekly" "message" ".txt",
            some (templateCandidates "weekly" "message" ".html")) := rfl

/-- C9 amended: get_templates raises an assertion failure exactly for actions
outside the recognized set ACTIONS plus the literal fallback action
"message"; for "message" itself the assertion passes. -/
theorem get_templates_unknown_action (slug : String) (send_html : Bool)
    (action : String)
    (h : (ACTIONS ++ ["message"]).contains action = false) :
    get_templates slug send_html action =
      .error ("Unknown action: " ++ action) := by
  unfold get_templates
  rw [h]
  simp

/-- C9 witness: the assertion failure at a concrete unrecognized action. -/
theorem get_templates_unknown_action_witness :
    get_templates "weekly" true "bogus" =
      .error ("Unknown action: " ++ "bogus") :=
  get_templates_unknown_action "weekly" true "bogus" rfl

/-- When no recipient raises while rendering, the loop runs to completion:
every recipient is attempted and exactly those whose send does not raise are
delivered. -/
lemma sendLoop_no_escape (l : List Recipient)
    (h : ∀ r ∈ l, r.renderFails = false) :
    sendLoop l = (l.length, ((l.filter (fun r => !r.sendFails)).length, true)) := by
  induction l with
  | nil => rfl
  | cons r rs ih =>
      have hr : r.renderFails = false := h r (by simp)
      have hrest := ih (fun x hx => h x (List.mem_cons_of_mem r hx))
      by_cases hs : r.sendFails = true
      · simp [sendLoop, send_message, hr, hs, hrest, List.filter_cons]
      · simp only [Bool.not_eq_true] at hs
        simp [sendLoop, send_message, hr, hs, hrest, List.filter_cons]

/-- C2: for a past-dated Submission where no rendering failure occurs, submit
succeeds even when some message.send() calls raise: each such failure is
caught and logged inside send_message, every subscribed attached recipient is
still attempted, exactly the non-raising sends are delivered, and the final
state is sent=true, sending=false. -/
theorem send_failure_skipped (t : Nat) (sub : Submission)
    (hpast : sub.state.publish_date < t)
    (hrender : ∀ r ∈ sub.attached, r.renderFails = false) :
    (submitOutcome t sub).map
      (fun res => (res.state.sent, res.state.sending, res.attempted, res.delivered)) =
      some (true, false, (sub.attached.filter (fun r => r.subscribed)).length,
        ((sub.attached.filter (fun r => r.subscribed)).filter
          (fun r => !r.sendFails)).length) := by
  have hf : ∀ r ∈ sub.attached.filter (fun r => r.subscribed),
      r.renderFails = false :=
    fun r hr => hrender r (List.mem_of_mem_filter hr)
  have hl := sendLoop_no_escape _ hf
  simp [submitOutcome, Submission.submit, hpast, hl, Except.toOption]

/-- Concrete recipients for the C2 witness: the second of three sends
raises. -/
def w2ok : Recipient := ⟨true, false, false⟩

def w2fail : Recipient := ⟨true, false, true⟩

def w2sub : Submission := ⟨⟨true, false, false, 1⟩, [w2ok, w2fail, w2ok], []⟩

/-- C2 witness: one failing send among three; all three attempted, two
delivered, sent=true. -/
theorem send_failure_skipped_witness :
    (submitOutcome 5 w2sub).map
      (fun res => (res.state.sent, res.state.sending, res.attempted, res.delivered)) =
      some (true, false, 3, 2) := by
  have h := send_failure_skipped 5 w2sub (by decide) (by decide)
  simpa using h

/-- C10: when every individual message.send() raises (and no rendering
failure occurs), submit still completes the loop: zero emails are delivered
yet the final state is sent=true, sending=false — the sent flag records loop
completion, not delivery. -/
theorem sent_records_loop_completion (t : Nat) (sub : Submission)
    (hpast : sub.state.publish_date < t)
    (hfail : ∀ r ∈ sub.attached, r.renderFails = false ∧ r.sendFails = true) :
    (submitOutcome t sub).map
      (fun res => (res.state.sent, res.state.sending, res.delivered)) =
      some (true, false, 0) := by
  have hf : ∀ r ∈ sub.attached.filter (fun r => r.subscribed),
      r.renderFails = false :=
    fun r hr => (hfail r (List.mem_of_mem_filter hr)).1
  have hl := sendLoop_no_escape _ hf
  have h0 : ((sub.attached.filter (fun r => r.subscribed)).filter
      (fun r => !r.sendFails)) = [] := by
    rw [List.filter_eq_nil_iff]
    intro r hr
    simp [(hfail r (List.mem_of_mem_filter hr)).2]
  rw [h0] at hl
  simp [submitOutcome, Submission.submit, hpast, hl, Except.toOption]

/-- Concrete input for the C10 witness: every send raises. -/
def w10sub : Submission :=
  ⟨⟨true, false, false, 2⟩, [⟨true, false, true⟩, ⟨true, false, true⟩], []⟩

/-- C10 witness: both sends raise, zero delivered, sent=true anyway. -/
theorem sent_records_loop_completion_witness :
    (submitOutcome 9 w10sub).map
      (fun res => (res.state.sent, res.state.sending, res.delivered)) =
      some (true, false, 0) :=
  sent_records_loop_completion 9 w10sub (by decide) (by decide)

/-- C4: for every past-dated Submission, submit terminates with sending=false
persisted — both when the loop completes and when an exception escapes it
(the except clause catches it and the finally clause clears sending); for a
Submission whose publish date is not in the past, submit raises the assertion
failure before sending is ever set, so no state is persisted. -/
theorem submit_clears_sending (t : Nat) (sub : Submission) :
    (sub.state.publish_date < t →
      (submitOutcome t sub).map (fun res => res.state.sending) = some false) ∧
    (¬ sub.state.publish_date < t →
      Submission.submit t sub =
        .error "Something smells fishy; submission time in future.") := by
  constructor
  · intro h
    simp [submitOutcome, Submission.submit, h, Except.toOption]
  · intro h
    simp [Submission.submit, h]

/-- Concrete inputs for the C4 witness: a past-dated submission whose single
recipient raises while rendering (the exception escapes the loop), and a
future-dated submission. -/
def w4esc : Submission := ⟨⟨true, false, false, 1⟩, [⟨true, true, false⟩], []⟩

def w4fut : Submission := ⟨⟨true, false, false, 7⟩, [], []⟩

/-- C4 witness: sending cleared despite the escaping exception; assertion
failure for the future-dated submission. -/
theorem submit_clears_sending_witness :
    ((submitOutcome 5 w4esc).map (fun res => res.state.sending) = some false) ∧
    (Submission.submit 3 w4fut =
      .error "Something smells fishy; submission time in future.") :=
  ⟨(submit_clears_sending 5 w4esc).1 (by decide),
   (submit_clears_sending 3 w4fut).2 (by decide)⟩

/-- Concrete input for the C3 counterexample: 3 subscribed recipients, the
send to the 2nd raises. -/
def c3sub : Submission :=
  ⟨⟨true, false, false, 1⟩,
   [⟨true, false, false⟩, ⟨true, false, true⟩, ⟨true, false, false⟩], []⟩

/-- C3 counterexample: with 3 subscribed recipients where the mail backend
raises for the 2nd, submit attempts all 3 sends, delivers 2, and ends with
sent=true and sending=false — refuting the claim that the remaining sends
are aborted and the final state is sent=false. -/
theorem c3_failure_does_not_abort :
    (submitOutcome 5 c3sub).map
      (fun res => (res.state.sent, res.state.sending, res.attempted, res.delivered)) =
      some (true, false, 3, 2) := rfl

/-- C3 amended: for a past-dated Submission with 3 subscribed recipients
where only the send to the 2nd raises (and no rendering failure occurs), the
failure is caught and logged inside send_message, all 3 recipients are
attempted, 2 sends are delivered, and the final persisted state is sent=true
and sending=false — a future poll does not retry it. -/
theorem second_send_failure_continues (t : Nat) (st : SubmissionState)
    (ns : List Recipient) (a b c : Recipient)
    (hpast : st.publish_date < t)
    (hsa : a.subscribed = true) (hsb : b.subscribed = true)
    (hsc : c.subscribed = true)
    (hra : a.renderFails = false) (hrb : b.renderFails = false)
    (hrc : c.renderFails = false)
    (hfa : a.sendFails = false) (hfb : b.sendFails = true)
    (hfc : c.sendFails = false) :
    (submitOutcome t ⟨st, [a, b, c], ns⟩).map
      (fun res => (res.state.sent, res.state.sending, res.attempted, res.delivered)) =
      some (true, false, 3, 2) := by
  simp [submitOutcome, Submission.submit, sendLoop, send_message, hpast,
        hsa, hsb, hsc, hra, hrb, hrc, hfa, hfb, hfc, Except.toOption,
        List.filter_cons]

/-- Concrete recipients for the C3 witness. -/
def w3ok : Recipient := ⟨true, false, false⟩

def w3fail : Recipient := ⟨true, false, true⟩

/-- C3 witness: the amended statement at a concrete input. -/
theorem second_send_failure_continues_witness :
    (submitOutcome 6 ⟨⟨true, false, false, 2⟩, [w3ok, w3fail, w3ok], []⟩).map
      (fun res => (res.state.sent, res.state.sending, res.attempted, res.delivered)) =
      some (true, false, 3, 2) :=
  second_send_failure_continues 6 ⟨true, false, false, 2⟩ [] w3ok w3fail w3ok
    (by decide) rfl rfl rfl rfl rfl rfl rfl rfl rfl

/-- Concrete input for the C1 counterexample: empty attached set, one
subscribed subscription on the newsletter. -/
def c1sub : Submission := ⟨⟨true, false, false, 1⟩, [], [⟨true, false, false⟩]⟩

/-- C1 counterexample: the resolution described by the spec yields the one
subscribed subscription of the newsletter, yet submit attempts and delivers
zero sends — submit never falls back to the subscriptions of the
newsletter. -/
theorem c1_no_fallback_to_newsletter :
    (specRecipients c1sub).length = 1 ∧
    (submitOutcome 5 c1sub).map
      (fun res => (res.attempted, res.delivered)) = some (0, 0) :=
  ⟨rfl, rfl⟩

/-- C1 amended: for every past-dated Submission whose explicitly attached
subscription set is empty, submit sends no email at all and still ends with
sent=true; the recipient set is always the attached subscriptions filtered
to subscribed, with no fallback to the subscribed subscriptions of the
newsletter (that snapshot happens only in from_message at creation time). -/
theorem empty_attached_sends_nothing (t : Nat) (sub : Submission)
    (hpast : sub.state.publish_date < t)
    (hempty : sub.attached = []) :
    (submitOutcome t sub).map
      (fun res => (res.attempted, res.delivered, res.state.sent)) =
      some (0, 0, true) := by
  simp [submitOutcome, Submission.submit, hpast, hempty, sendLoop,
        Except.toOption]

/-- Concrete input for the C1 witness. -/
def w1sub : Submission :=
  ⟨⟨true, false, false, 1⟩, [],
   [⟨true, false, false⟩, ⟨true, false, false⟩]⟩

/-- C1 witness: the amended statement at a concrete input. -/
theorem empty_attached_sends_nothing_witness :
    (submitOutcome 4 w1sub).map
      (fun res => (res.attempted, res.delivered, res.state.sent)) =
      some (0, 0, true) :=
  empty_attached_sends_nothing 4 w1sub (by decide) rfl

/-- C6: submit_queue invokes submit on exactly the submissions with
prepared=true, sent=false, sending=false and publish_date earlier than the
current time; every other submission of the queue is left unchanged. -/
theorem submit_queue_selects (t : Nat) (subs : List Submission) (i : Nat)
    (h : i < subs.length) :
    (submit_queue t subs)[i]? =
      some (if pendingFilter t subs[i] then applySubmit t subs[i]
            else subs[i]) := by
  simp [submit_queue, List.getElem?_map, List.getElem?_eq_getElem h]

/-- Concrete queue for the C6 witness: one pending submission and one already
sent. -/
def w6pend : Submission := ⟨⟨true, false, false, 1⟩, [⟨true, false, false⟩], []⟩

def w6done : Submission := ⟨⟨true, true, false, 1⟩, [⟨true, false, false⟩], []⟩

/-- C6 witness: the pending submission is submitted, the sent one is left
unchanged. -/
theorem submit_queue_selects_witness :
    ((submit_queue 5 [w6pend, w6done])[0]? = some (applySubmit 5 w6pend)) ∧
    ((submit_queue 5 [w6pend, w6done])[1]? = some w6done) := by
  constructor
  · have h := submit_queue_selects 5 [w6pend, w6done] 0 (by decide)
    rw [h]
    rfl
  · have h := submit_queue_selects 5 [w6pend, w6done] 1 (by decide)
    rw [h]
    rfl
